import Mathlib

/-!
Shallow embedding of the remote-object bridge of a browser-automation
engine: the element-interaction geometry of `src/chromium/JSHandle.ts`
(clickable point, quad area, viewport point resolution, select argument
normalization, screenshot viewport handling) and the execution-context
argument/error codec of the execution-context delegate
(`convertArgument`, `rewriteError`, function-text reconstruction).
Coordinates are modelled as rationals; protocol round trips are modelled
by passing their results as explicit parameters.
-/

namespace Playwright

/-- Viewport-relative point in CSS pixels, `type Point = {x, y}`. -/
structure Point where
  x : ℚ
  y : ℚ
deriving DecidableEq, Repr

/-- Step `i` of the loop in `computeQuadArea`: the accumulated signed area
after `i` iterations of `area += (p1.x * p2.y - p2.x * p1.y) / 2` over
`p1 = quad[i]`, `p2 = quad[(i + 1) % quad.length]`. -/
def shoelaceSum (quad : List Point) : Nat → ℚ
  | 0 => 0
  | i + 1 =>
    let p1 := quad.getD i ⟨0, 0⟩
    let p2 := quad.getD ((i + 1) % quad.length) ⟨0, 0⟩
    shoelaceSum quad i + (p1.x * p2.y - p2.x * p1.y) / 2

/-- Embedding of `computeQuadArea(quad)`: sum of directed areas of adjacent
triangles over all indices, then `Math.abs`. -/
def computeQuadArea (quad : List Point) : ℚ :=
  |shoelaceSum quad quad.length|

/-- Embedding of `_fromProtocolQuad(quad)`: an 8-number protocol quad becomes
four points. -/
def fromProtocolQuad (quad : List ℚ) : List Point :=
  [⟨quad.getD 0 0, quad.getD 1 0⟩,
   ⟨quad.getD 2 0, quad.getD 3 0⟩,
   ⟨quad.getD 4 0, quad.getD 5 0⟩,
   ⟨quad.getD 6 0, quad.getD 7 0⟩]

/-- Embedding of `_intersectQuadWithViewport(quad, width, height)`: clamp every
coordinate into `[0, width] × [0, height]`. -/
def intersectQuadWithViewport (quad : List Point) (width height : ℚ) : List Point :=
  quad.map fun p => ⟨min (max p.x 0) width, min (max p.y 0) height⟩

/-- Middle point of a quad as computed by `_clickablePoint`: sum of the
coordinates accumulated over the quad, divided by 4. -/
def quadMiddle (quad : List Point) : Point :=
  let s := quad.foldl (fun acc p => (acc.1 + p.x, acc.2 + p.y)) ((0 : ℚ), (0 : ℚ))
  ⟨s.1 / 4, s.2 / 4⟩

/-- Embedding of `_clickablePoint()`. The `DOM.getContentQuads` response is the
`result` parameter (`none` models a protocol failure swallowed by
`.catch(debugError)`), and the layout viewport size is passed explicitly.
Quads are converted from protocol form, clipped to the viewport, filtered by
area `> 1`, and the middle point of the first survivor is returned. -/
def clickablePoint (result : Option (List (List ℚ))) (clientWidth clientHeight : ℚ) :
    Except String Point :=
  match result with
  | none => .error "Node is either not visible or not an HTMLElement"
  | some protocolQuads =>
    if protocolQuads.length = 0 then
      .error "Node is either not visible or not an HTMLElement"
    else
      let quads := ((protocolQuads.map fromProtocolQuad).map
          (fun quad => intersectQuadWithViewport quad clientWidth clientHeight)).filter
          (fun quad => decide (1 < computeQuadArea quad))
      match quads with
      | [] => .error "Node is either not visible or not an HTMLElement"
      | quad :: _ => .ok (quadMiddle quad)

/-- Result record of `_viewportPointAndScroll`. -/
structure PointAndScroll where
  point : Point
  scrollX : ℚ
  scrollY : ℚ
deriving DecidableEq, Repr

/-- Embedding of `_viewportPointAndScroll(relativePoint)`. The
`DOM.getBoxModel` padding quad is the `model` parameter (`none` models a
protocol failure swallowed by `.catch(debugError)`), and the layout viewport
size is passed explicitly. The target point is the minimum x/y corner of the
padding quad plus the relative point (or the raw relative point without a
model); scroll deltas keep the point one pixel inside each viewport edge,
with the lower-edge check evaluated first and the upper-edge check second,
the later assignment overriding the earlier one as in the source. -/
def viewportPointAndScroll (model : Option (List ℚ)) (relativePoint : Point)
    (clientWidth clientHeight : ℚ) : PointAndScroll :=
  let point : Point :=
    match model with
    | none => relativePoint
    | some quad =>
      let x := min (min (quad.getD 0 0) (quad.getD 2 0)) (min (quad.getD 4 0) (quad.getD 6 0))
      let y := min (min (quad.getD 1 0) (quad.getD 3 0)) (min (quad.getD 5 0) (quad.getD 7 0))
      ⟨x + relativePoint.x, y + relativePoint.y⟩
  let scrollXLow : ℚ := if point.x < 1 then point.x - 1 else 0
  let scrollX : ℚ := if point.x > clientWidth - 1 then point.x - clientWidth + 1 else scrollXLow
  let scrollYLow : ℚ := if point.y < 1 then point.y - 1 else 0
  let scrollY : ℚ := if point.y > clientHeight - 1 then point.y - clientHeight + 1 else scrollYLow
  ⟨point, scrollX, scrollY⟩

/-- Primitive JavaScript values that may appear in a select option field. -/
inductive SelectPrim where
  | str (s : String)
  | num (q : ℚ)
  | boolean (b : Bool)
deriving DecidableEq, Repr

/-- An option descriptor `{value?, label?, index?}` passed to `select`. -/
structure SelectOption where
  value : Option SelectPrim := none
  label : Option SelectPrim := none
  index : Option SelectPrim := none
deriving DecidableEq, Repr

/-- An argument to `select(...values)`: a string, a number, an
`ElementHandle` (an object, `instanceof ElementHandle`), or a plain
option-descriptor object. -/
inductive SelectValue where
  | str (s : String)
  | num (q : ℚ)
  | handle
  | opt (o : SelectOption)
deriving DecidableEq, Repr

/-- A normalized select argument after the `values.map` step: an
`ElementHandle` or an option descriptor. -/
inductive NormalizedSelect where
  | handle
  | opt (o : SelectOption)
deriving DecidableEq, Repr

/-- The `values.map(value => typeof value === "object" ? value : \x7b value \x7d)`
step of `select`: objects (handles and option descriptors) pass through
unchanged, strings and numbers are wrapped as a `value` field. -/
def normalizeSelectValue : SelectValue → NormalizedSelect
  | .str s => .opt { value := some (.str s) }
  | .num q => .opt { value := some (.num q) }
  | .handle => .handle
  | .opt o => .opt o

/-- JavaScript `typeof` of a select-field primitive. -/
def jsTypeof : SelectPrim → String
  | .str _ => "string"
  | .num _ => "number"
  | .boolean _ => "boolean"

/-- JavaScript string coercion of a select-field primitive, as produced by
string concatenation in the assertion messages. -/
def primDisplay : SelectPrim → String
  | .str s => s
  | .num q => if q.den = 1 then toString q.num else toString q
  | .boolean b => if b then "true" else "false"

/-- The `helper.isString` check: `typeof obj === "string"`. -/
def isStringPrim : SelectPrim → Bool
  | .str _ => true
  | _ => false

/-- The `helper.isNumber` check: `typeof obj === "number"`. -/
def isNumberPrim : SelectPrim → Bool
  | .num _ => true
  | _ => false

/-- The assertion sequence `select` runs on one option descriptor: `value`
must be a string, `label` must be a string, `index` must be a number, each
checked only when the field is present, in that order, the first failing
assertion raising its message. -/
def validateSelectOption (o : SelectOption) : Except String Unit :=
  match o.value with
  | some v =>
    if isStringPrim v then
      validateLabelIndex o
    else
      .error ("Values must be strings. Found value \"" ++ primDisplay v ++
        "\" of type \"" ++ jsTypeof v ++ "\"")
  | none => validateLabelIndex o
where
  validateLabelIndex (o : SelectOption) : Except String Unit :=
    match o.label with
    | some l =>
      if isStringPrim l then
        validateIndex o
      else
        .error ("Labels must be strings. Found label \"" ++ primDisplay l ++
          "\" of type \"" ++ jsTypeof l ++ "\"")
    | none => validateIndex o
  validateIndex (o : SelectOption) : Except String Unit :=
    match o.index with
    | some i =>
      if isNumberPrim i then
        .ok ()
      else
        .error ("Indices must be numbers. Found index \"" ++ primDisplay i ++
          "\" of type \"" ++ jsTypeof i ++ "\"")
    | none => .ok ()

/-- The validation loop of `select`: `ElementHandle` arguments are skipped
(`continue`), every other option is validated, the first failure aborting. -/
def validateSelectOptions : List NormalizedSelect → Except String Unit
  | [] => .ok ()
  | .handle :: rest => validateSelectOptions rest
  | .opt o :: rest =>
    match validateSelectOption o with
    | .error e => .error e
    | .ok _ => validateSelectOptions rest

/-- Embedding of the argument-processing part of `select(...values)`: map
each argument through normalization, then run the validation loop; on
success the normalized list is handed to the injected in-page routine. -/
def select (values : List SelectValue) : Except String (List NormalizedSelect) :=
  let options := values.map normalizeSelectValue
  match validateSelectOptions options with
  | .error e => .error e
  | .ok _ => .ok options

/-- A page viewport, the fields `screenshot` reads and writes. -/
structure Viewport where
  width : ℚ
  height : ℚ
deriving DecidableEq, Repr

/-- A bounding box as returned by `boundingBox()`. -/
structure Box where
  x : ℚ
  y : ℚ
  width : ℚ
  height : ℚ
deriving DecidableEq, Repr

/-- Outcomes of the protocol round trips made by `screenshot`, passed as
explicit parameters: the two `boundingBox()` results, the
`_scrollIntoViewIfNeeded` outcome (`some e` models a raised error), the
layout-viewport page offsets, and the result of the page-level
`_page.screenshot` capture call. -/
structure ScreenshotEnv where
  boundingBox1 : Option Box
  scrollError : Option String
  boundingBox2 : Option Box
  pageX : ℚ
  pageY : ℚ
  capture : Except String String
deriving Repr

/-- Embedding of `screenshot(options)` as a function from the current page
viewport to the result together with the viewport in effect afterwards.
When the first bounding box exceeds the viewport the viewport is enlarged
(`Math.ceil` of the box extents, merged over the original viewport) and
`needsViewportReset` is set; the original viewport is written back only on
the line after a successful capture — every error return leaves whatever
viewport is current at that step. -/
def screenshot (env : ScreenshotEnv) (viewport : Option Viewport) :
    Except String String × Option Viewport :=
  match env.boundingBox1 with
  | none => (.error "Node is either not visible or not an HTMLElement", viewport)
  | some boundingBox =>
    let resized : Option Viewport :=
      match viewport with
      | some v =>
        if boundingBox.width > v.width ∨ boundingBox.height > v.height then
          some ⟨max v.width ((⌈boundingBox.width⌉ : ℤ) : ℚ),
                max v.height ((⌈boundingBox.height⌉ : ℤ) : ℚ)⟩
        else
          none
      | none => none
    let current : Option Viewport :=
      match resized with
      | some nv => some nv
      | none => viewport
    match env.scrollError with
    | some e => (.error e, current)
    | none =>
      match env.boundingBox2 with
      | none => (.error "Node is either not visible or not an HTMLElement", current)
      | some box2 =>
        if box2.width = 0 then
          (.error "Node has 0 width.", current)
        else if box2.height = 0 then
          (.error "Node has 0 height.", current)
        else
          match env.capture with
          | .error e => (.error e, current)
          | .ok imageData =>
            (.ok imageData, if resized.isSome then viewport else current)

/-- Substring test on character lists: `p` occurs contiguously in `l`. -/
def listContainsSeq : List Char → List Char → Bool
  | [], p => p.isEmpty
  | c :: t, p => p.isPrefixOf (c :: t) || listContainsSeq t p

/-- JavaScript `String.prototype.includes`. -/
def strIncludes (s pat : String) : Bool :=
  listContainsSeq s.toList pat.toList

/-- JavaScript `String.prototype.startsWith`: `pat` is a prefix of `s`. -/
def strStartsWith (s pat : String) : Bool :=
  pat.toList.isPrefixOf s.toList

/-- JavaScript `String.prototype.endsWith`: `pat` is a suffix of `s`,
checked by dropping all but the last `pat.length` characters. -/
def strEndsWith (s pat : String) : Bool :=
  pat.toList.isPrefixOf (s.toList.drop (s.toList.length - pat.toList.length))

/-- An apostrophe character, used in one of the protocol error strings. -/
def apos : String :=
  String.singleton (Char.ofNat 39)

/-- The remote error message `Object couldn't be returned by value`. -/
def couldNotReturnMsg : String :=
  "Object couldn" ++ apos ++ "t be returned by value"

/-- Outcome of `rewriteError(error)`: either the call is resolved with an
`undefined` remote object, or an error with the given message is thrown. -/
inductive RewriteResult where
  | undefinedResult
  | thrown (msg : String)
deriving DecidableEq, Repr

/-- Embedding of `rewriteError(error)` in `evaluate`: the two
serialization-limit messages are downgraded to an `undefined` result, the
two context-gone suffixes are remapped to the stable context-destroyed
message, and anything else is rethrown unchanged. -/
def rewriteError (msg : String) : RewriteResult :=
  if strIncludes msg "Object reference chain is too long" then
    .undefinedResult
  else if strIncludes msg couldNotReturnMsg then
    .undefinedResult
  else if strEndsWith msg "Cannot find context with specified id" ||
      strEndsWith msg "Inspected target navigated or closed" then
    .thrown "Execution context was destroyed, most likely because of a navigation."
  else
    .thrown msg

/-- A wire-level remote-object descriptor, the fields read by
`convertArgument` and `toRemoteObject`. -/
structure RemoteObject where
  objectId : Option String := none
  unserializableValue : Option String := none
  value : Option String := none
deriving DecidableEq, Repr

/-- A local handle as seen by `convertArgument`: the identity of the
execution context it was created in, its disposed flag, and its
remote-object descriptor. -/
structure Handle where
  ctx : Nat
  disposed : Bool
  remoteObject : RemoteObject
deriving DecidableEq, Repr

/-- An argument value passed to `evaluate`, partitioned the way the chain of
checks in `convertArgument` observes it: `typeof arg === "bigint"`, the
four `Object.is` special numbers, a `JSHandle`, and everything else
(ordinary numbers — including `+0` —, strings, booleans, `undefined`,
`null`, plain objects). -/
inductive JsArg where
  | bigint (n : ℤ)
  | negZero
  | posInfinity
  | negInfinity
  | nan
  | num (q : ℚ)
  | str (s : String)
  | boolean (b : Bool)
  | undef
  | nullVal
  | handle (h : Handle)
  | plainObject (tag : String)
deriving DecidableEq, Repr

/-- A converted call argument as sent on the wire by `Runtime.callFunctionOn`:
an `unserializableValue` tag, an inlined `\x7bvalue: arg\x7d`, an inlined
`\x7bvalue: remoteObject.value\x7d` from a primitive handle, or an `objectId`
reference. -/
inductive ConvertedArg where
  | unserializable (s : String)
  | inlined (v : JsArg)
  | inlinedRemote (v : Option String)
  | objId (id : String)
deriving DecidableEq, Repr

/-- JavaScript truthiness of an optional string field of a descriptor. -/
def optStrTruthy : Option String → Bool
  | none => false
  | some s => !s.isEmpty

/-- Embedding of `convertArgument(arg)` for the execution context with
identity `contextId`: bigint and the `Object.is` special numbers become
`unserializableValue` tags; a handle must belong to the same context and not
be disposed, and is then sent as its descriptor's unserializable tag, inline
value, or object id; every other value is inlined as `\x7bvalue: arg\x7d`. -/
def convertArgument (contextId : Nat) (arg : JsArg) : Except String ConvertedArg :=
  match arg with
  | .bigint n => .ok (.unserializable (toString n ++ "n"))
  | .negZero => .ok (.unserializable "-0")
  | .posInfinity => .ok (.unserializable "Infinity")
  | .negInfinity => .ok (.unserializable "-Infinity")
  | .nan => .ok (.unserializable "NaN")
  | .handle h =>
    if h.ctx ≠ contextId then
      .error "JSHandles can be evaluated only in the context they were created!"
    else if h.disposed then
      .error "JSHandle is disposed!"
    else if optStrTruthy h.remoteObject.unserializableValue then
      .ok (.unserializable (h.remoteObject.unserializableValue.getD ""))
    else if !optStrTruthy h.remoteObject.objectId then
      .ok (.inlinedRemote h.remoteObject.value)
    else
      .ok (.objId (h.remoteObject.objectId.getD ""))
  | v => .ok (.inlined v)

/-- Embedding of the function-text reconstruction in `evaluate`. The
`parses` oracle models `new Function(text)` succeeding on `text`; the source
first tries the parenthesized text, and on failure makes exactly one
rewrite — replacing a leading `async ` by `async function `, otherwise
prepending `function ` — and fails with the not-well-serializable message if
the rewritten text still does not parse. -/
def evaluateFunctionText (parses : String → Bool) (functionText : String) :
    Except String String :=
  if parses ("(" ++ functionText ++ ")") then
    .ok functionText
  else
    let functionText2 :=
      if strStartsWith functionText "async " then
        "async function " ++ functionText.drop ("async ".length)
      else
        "function " ++ functionText
    if parses ("(" ++ functionText2 ++ ")") then
      .ok functionText2
    else
      .error "Passed function is not well-serializable!"

/-- One observable sub-operation of `_performPointerAction`, in the order the
source awaits them: the in-page scroll-into-view evaluation, the
`_viewportPointAndScroll` query, the in-page `scrollBy` evaluation, the
`_clickablePoint` computation, modifier capture, the caller-supplied action,
and modifier restoration. -/
inductive ActionStep where
  | scrollIntoView
  | queryPointAndScroll
  | scrollBy (dx dy : ℚ)
  | computeClickablePoint
  | ensureModifiers
  | runAction (p : Point)
  | restoreModifiers
deriving DecidableEq, Repr

/-- Outcomes of the sub-operations of `_performPointerAction`, passed as
explicit parameters: the two possible `_scrollIntoViewIfNeeded` outcomes
(the unconditional first call and the second call made on the default-point
branch), the two `_viewportPointAndScroll` results used on the
relative-point branch, the in-page `scrollBy` evaluation outcome, the
`_clickablePoint` outcome, and the caller-supplied action outcome. -/
structure PointerActionEnv where
  scrollResult1 : Option String
  scrollResult2 : Option String
  relResult1 : PointAndScroll
  scrollByError : Option String
  relResult2 : PointAndScroll
  clickResult : Except String Point
  actionError : Option String
deriving Repr

/-- Tail of `_performPointerAction` once a point is resolved: optionally
capture modifiers, run the action (its failure aborting before any
restoration), then restore modifiers when they were captured. -/
def finishPointerAction (env : PointerActionEnv) (modifiers : Bool) (p : Point)
    (steps : List ActionStep) : List ActionStep × Except String Unit :=
  let steps1 := steps ++ (if modifiers then [ActionStep.ensureModifiers] else [])
  match env.actionError with
  | some e => (steps1 ++ [ActionStep.runAction p], .error e)
  | none =>
    (steps1 ++ [ActionStep.runAction p] ++
      (if modifiers then [ActionStep.restoreModifiers] else []), .ok ())

/-- Embedding of `_performPointerAction(action, options)` as the trace of
steps it awaits together with its outcome. The scroll-into-view routine is
awaited unconditionally first; with a `relativePoint` option the point is
resolved with at most one induced scroll and re-resolution; otherwise the
scroll-into-view routine is awaited again and the clickable point computed. -/
def performPointerAction (env : PointerActionEnv) (relativePoint : Option Point)
    (modifiers : Bool) : List ActionStep × Except String Unit :=
  match env.scrollResult1 with
  | some e => ([ActionStep.scrollIntoView], .error e)
  | none =>
    match relativePoint with
    | some _ =>
      let r := env.relResult1
      let steps0 := [ActionStep.scrollIntoView, ActionStep.queryPointAndScroll]
      if r.scrollX ≠ 0 ∨ r.scrollY ≠ 0 then
        match env.scrollByError with
        | some e => (steps0 ++ [ActionStep.scrollBy r.scrollX r.scrollY], .error e)
        | none =>
          let r2 := env.relResult2
          let steps1 := steps0 ++ [ActionStep.scrollBy r.scrollX r.scrollY,
            ActionStep.queryPointAndScroll]
          if r2.scrollX ≠ 0 ∨ r2.scrollY ≠ 0 then
            (steps1, .error "Failed to scroll relative point into viewport")
          else
            finishPointerAction env modifiers r2.point steps1
      else
        finishPointerAction env modifiers r.point steps0
    | none =>
      match env.scrollResult2 with
      | some e => ([ActionStep.scrollIntoView, ActionStep.scrollIntoView], .error e)
      | none =>
        let steps0 := [ActionStep.scrollIntoView, ActionStep.scrollIntoView,
          ActionStep.computeClickablePoint]
        match env.clickResult with
        | .error e => (steps0, .error e)
        | .ok p => finishPointerAction env modifiers p steps0

/-- Cross product of the consecutive edges `a → b` and `b → c`: the turn
direction at vertex `b` when traversing `a, b, c`. Used to state what a
non-degenerate simple quadrilateral is. -/
def ccw (a b c : Point) : ℚ :=
  (b.x - a.x) * (c.y - b.y) - (c.x - b.x) * (b.y - a.y)

/-- A non-degenerate simple quadrilateral `a b c d`, characterized through
its four turn directions: a simple quadrilateral traversed in vertex order
is either convex (all four turns strictly to the same side) or has exactly
one reflex vertex (one turn to the other side, or straight), so at least
three of the four turns share a strict sign. -/
def IsSimpleNondegenQuad (a b c d : Point) : Prop :=
  (0 < ccw a b c ∧ 0 < ccw b c d ∧ 0 < ccw c d a) ∨
  (0 < ccw b c d ∧ 0 < ccw c d a ∧ 0 < ccw d a b) ∨
  (0 < ccw c d a ∧ 0 < ccw d a b ∧ 0 < ccw a b c) ∨
  (0 < ccw d a b ∧ 0 < ccw a b c ∧ 0 < ccw b c d) ∨
  (ccw a b c < 0 ∧ ccw b c d < 0 ∧ ccw c d a < 0) ∨
  (ccw b c d < 0 ∧ ccw c d a < 0 ∧ ccw d a b < 0) ∨
  (ccw c d a < 0 ∧ ccw d a b < 0 ∧ ccw a b c < 0) ∨
  (ccw d a b < 0 ∧ ccw a b c < 0 ∧ ccw b c d < 0)

theorem computeQuadArea_quad (a b c d : Point) :
    computeQuadArea [a, b, c, d] =
      |0 + (a.x * b.y - b.x * a.y) / 2 + (b.x * c.y - c.x * b.y) / 2 +
        (c.x * d.y - d.x * c.y) / 2 + (d.x * a.y - a.x * d.y) / 2| := by
  show |shoelaceSum [a, b, c, d] 4| = _
  have h : shoelaceSum [a, b, c, d] 4 =
      0 + (a.x * b.y - b.x * a.y) / 2 + (b.x * c.y - c.x * b.y) / 2 +
        (c.x * d.y - d.x * c.y) / 2 + (d.x * a.y - a.x * d.y) / 2 := by
    simp [shoelaceSum]
  rw [h]

theorem shoelace_eq_ccw_ac (a b c d : Point) :
    0 + (a.x * b.y - b.x * a.y) / 2 + (b.x * c.y - c.x * b.y) / 2 +
      (c.x * d.y - d.x * c.y) / 2 + (d.x * a.y - a.x * d.y) / 2 =
      (ccw a b c + ccw c d a) / 2 := by
  unfold ccw; ring

theorem shoelace_eq_ccw_bd (a b c d : Point) :
    0 + (a.x * b.y - b.x * a.y) / 2 + (b.x * c.y - c.x * b.y) / 2 +
      (c.x * d.y - d.x * c.y) / 2 + (d.x * a.y - a.x * d.y) / 2 =
      (ccw b c d + ccw d a b) / 2 := by
  unfold ccw; ring

theorem computeQuadArea_rot1 (a b c d : Point) :
    computeQuadArea [b, c, d, a] = computeQuadArea [a, b, c, d] := by
  rw [computeQuadArea_quad, computeQuadArea_quad]
  congr 1
  ring

/-- C7: `computeQuadArea` returns the same value for any uniform rotation of
a quad's point order, returns 0 for any 4 collinear points, returns a
positive value for every non-degenerate simple quadrilateral, and gives the
unit square `[(0,0),(1,0),(1,1),(0,1)]` area exactly 1. -/
theorem computeQuadArea_props :
    (∀ (a b c d : Point) (n : ℕ),
      computeQuadArea (([a, b, c, d] : List Point).rotate n) = computeQuadArea [a, b, c, d]) ∧
    (∀ px py vx vy t0 t1 t2 t3 : ℚ,
      computeQuadArea [⟨px + t0 * vx, py + t0 * vy⟩, ⟨px + t1 * vx, py + t1 * vy⟩,
        ⟨px + t2 * vx, py + t2 * vy⟩, ⟨px + t3 * vx, py + t3 * vy⟩] = 0) ∧
    (∀ a b c d : Point, IsSimpleNondegenQuad a b c d → 0 < computeQuadArea [a, b, c, d]) ∧
    computeQuadArea [⟨0, 0⟩, ⟨1, 0⟩, ⟨1, 1⟩, ⟨0, 1⟩] = 1 := by
  refine ⟨?_, ?_, ?_, ?_⟩
  · intro a b c d n
    rw [← List.rotate_mod]
    simp only [List.length_cons, List.length_nil]
    have hlt : n % 4 < 4 := Nat.mod_lt n (by norm_num)
    set m := n % 4 with hm
    interval_cases m
    · rw [List.rotate_zero]
    · rw [show ([a, b, c, d] : List Point).rotate 1 = [b, c, d, a] from rfl,
        computeQuadArea_rot1]
    · rw [show ([a, b, c, d] : List Point).rotate 2 = [c, d, a, b] from rfl,
        computeQuadArea_rot1 b c d a, computeQuadArea_rot1 a b c d]
    · rw [show ([a, b, c, d] : List Point).rotate 3 = [d, a, b, c] from rfl,
        computeQuadArea_rot1 c d a b, computeQuadArea_rot1 b c d a,
        computeQuadArea_rot1 a b c d]
  · intro px py vx vy t0 t1 t2 t3
    rw [computeQuadArea_quad, abs_eq_zero]
    dsimp only
    ring
  · intro a b c d h
    have key : (0 < ccw a b c ∧ 0 < ccw c d a) ∨ (0 < ccw b c d ∧ 0 < ccw d a b) ∨
        (ccw a b c < 0 ∧ ccw c d a < 0) ∨ (ccw b c d < 0 ∧ ccw d a b < 0) := by
      unfold IsSimpleNondegenQuad at h
      tauto
    rw [computeQuadArea_quad]
    rcases key with ⟨h1, h3⟩ | ⟨h2, h4⟩ | ⟨h1, h3⟩ | ⟨h2, h4⟩
    · rw [shoelace_eq_ccw_ac, abs_of_pos (by linarith)]; linarith
    · rw [shoelace_eq_ccw_bd, abs_of_pos (by linarith)]; linarith
    · rw [shoelace_eq_ccw_ac, abs_of_neg (by linarith)]; linarith
    · rw [shoelace_eq_ccw_bd, abs_of_neg (by linarith)]; linarith
  · rw [computeQuadArea_quad]
    norm_num

/-- Witness for C7 at a concrete convex quadrilateral. -/
theorem computeQuadArea_props_witness :
    IsSimpleNondegenQuad ⟨0, 0⟩ ⟨2, 0⟩ ⟨3, 2⟩ ⟨0, 1⟩ ∧
    0 < computeQuadArea [⟨0, 0⟩, ⟨2, 0⟩, ⟨3, 2⟩, ⟨0, 1⟩] :=
  ⟨by unfold IsSimpleNondegenQuad ccw; norm_num,
   computeQuadArea_props.2.2.1 ⟨0, 0⟩ ⟨2, 0⟩ ⟨3, 2⟩ ⟨0, 1⟩
     (by unfold IsSimpleNondegenQuad ccw; norm_num)⟩

theorem filter_head_of_first {α : Type} (p : α → Bool) :
    ∀ (l : List α) (j : ℕ) (hj : j < l.length),
      p (l.get ⟨j, hj⟩) = true →
      (∀ i : Fin l.length, (i : ℕ) < j → p (l.get i) = false) →
      ∃ tl, l.filter p = l.get ⟨j, hj⟩ :: tl := by
  intro l
  induction l with
  | nil => intro j hj; simp at hj
  | cons x xs ih =>
    intro j hj hpj hsmall
    cases j with
    | zero =>
      refine ⟨xs.filter p, ?_⟩
      simp only [List.get] at hpj ⊢
      simp [List.filter_cons, hpj]
    | succ j =>
      have hx : p x = false := hsmall ⟨0, by simp⟩ (Nat.succ_pos j)
      have hj2 : j < xs.length := by simpa using hj
      obtain ⟨tl, htl⟩ := ih j hj2 (by simpa using hpj) (fun i hi => by
        have := hsmall ⟨(i : ℕ) + 1, by simpa using Nat.succ_lt_succ i.isLt⟩
          (Nat.succ_lt_succ hi)
        simpa using this)
      refine ⟨tl, ?_⟩
      simp only [List.filter_cons, hx]
      simpa using htl

/-- C3: `clickablePoint` discards every quad whose clipped area is at most 1
and returns the middle point of the first surviving quad in
browser-reported order; when no quad survives it fails with the visibility
error; and the middle point of a 4-point quad is the mean of its corners. -/
theorem clickablePoint_first_surviving :
    (∀ (qs : List (List ℚ)) (w h : ℚ) (j : ℕ) (hj : j < qs.length),
      1 < computeQuadArea (intersectQuadWithViewport (fromProtocolQuad (qs.get ⟨j, hj⟩)) w h) →
      (∀ i : Fin qs.length, (i : ℕ) < j →
        computeQuadArea (intersectQuadWithViewport (fromProtocolQuad (qs.get i)) w h) ≤ 1) →
      clickablePoint (some qs) w h =
        .ok (quadMiddle (intersectQuadWithViewport (fromProtocolQuad (qs.get ⟨j, hj⟩)) w h))) ∧
    (∀ (qs : List (List ℚ)) (w h : ℚ),
      (∀ q ∈ qs, computeQuadArea (intersectQuadWithViewport (fromProtocolQuad q) w h) ≤ 1) →
      clickablePoint (some qs) w h = .error "Node is either not visible or not an HTMLElement") ∧
    (∀ p1 p2 p3 p4 : Point, quadMiddle [p1, p2, p3, p4] =
      ⟨(p1.x + p2.x + p3.x + p4.x) / 4, (p1.y + p2.y + p3.y + p4.y) / 4⟩) := by
  have hcompose : ∀ (qs : List (List ℚ)) (w h : ℚ),
      (qs.map fromProtocolQuad).map (fun quad => intersectQuadWithViewport quad w h) =
        qs.map (fun q => intersectQuadWithViewport (fromProtocolQuad q) w h) := by
    intro qs w h
    rw [List.map_map]
    rfl
  refine ⟨?_, ?_, ?_⟩
  · intro qs w h j hj hbig hsmall
    have hne : ¬qs.length = 0 := by omega
    obtain ⟨tl, htl⟩ := filter_head_of_first
      (fun quad => decide (1 < computeQuadArea quad))
      (qs.map (fun q => intersectQuadWithViewport (fromProtocolQuad q) w h)) j
      (by simpa using hj)
      (by
        rw [List.get_map]
        simpa using hbig)
      (by
        intro i hi
        rw [List.get_map]
        have hlt : (i : ℕ) < qs.length := by simpa using i.isLt
        have := hsmall ⟨(i : ℕ), hlt⟩ hi
        simpa using this)
    simp only [clickablePoint, hcompose, if_neg hne, htl]
    rw [List.get_map]
  · intro qs w h hall
    have hfil : (qs.map (fun q => intersectQuadWithViewport (fromProtocolQuad q) w h)).filter
        (fun quad => decide (1 < computeQuadArea quad)) = [] := by
      rw [List.filter_eq_nil_iff]
      intro a ha
      obtain ⟨q, hq, rfl⟩ := List.mem_map.mp ha
      simpa using hall q hq
    simp only [clickablePoint, hcompose, hfil]
    split <;> rfl
  · intro p1 p2 p3 p4
    simp only [quadMiddle, List.foldl]
    simp only [Point.mk.injEq]
    constructor <;> ring

/-- Witness for C3: the first quad has clipped area exactly 1, the second
has area 100, so the middle point of the second quad, `(15, 15)`, is
returned. -/
theorem clickablePoint_first_surviving_witness :
    clickablePoint (some [[0, 0, 1, 0, 1, 1, 0, 1], [10, 10, 20, 10, 20, 20, 10, 20]]) 100 100 =
      .ok ⟨15, 15⟩ := by
  have happ := clickablePoint_first_surviving.1
    [[0, 0, 1, 0, 1, 1, 0, 1], [10, 10, 20, 10, 20, 20, 10, 20]] 100 100 1 (by norm_num)
    (by
      show 1 < computeQuadArea
        (intersectQuadWithViewport (fromProtocolQuad [10, 10, 20, 10, 20, 20, 10, 20]) 100 100)
      rw [show intersectQuadWithViewport (fromProtocolQuad [10, 10, 20, 10, 20, 20, 10, 20])
          100 100 = [⟨10, 10⟩, ⟨20, 10⟩, ⟨20, 20⟩, ⟨10, 20⟩] from rfl, computeQuadArea_quad]
      norm_num)
    (by
      intro i hi
      have h0 : i = ⟨0, by norm_num⟩ := by
        apply Fin.ext
        simp only [Fin.val_mk]
        omega
      subst h0
      show computeQuadArea
        (intersectQuadWithViewport (fromProtocolQuad [0, 0, 1, 0, 1, 1, 0, 1]) 100 100) ≤ 1
      rw [show intersectQuadWithViewport (fromProtocolQuad [0, 0, 1, 0, 1, 1, 0, 1]) 100 100 =
          [⟨0, 0⟩, ⟨1, 0⟩, ⟨1, 1⟩, ⟨0, 1⟩] from rfl, computeQuadArea_quad]
      norm_num)
  rw [happ]
  show Except.ok (quadMiddle [⟨10, 10⟩, ⟨20, 10⟩, ⟨20, 20⟩, ⟨10, 20⟩]) = _
  rw [clickablePoint_first_surviving.2.2 ⟨10, 10⟩ ⟨20, 10⟩ ⟨20, 20⟩ ⟨10, 20⟩]
  simp only [Except.ok.injEq, Point.mk.injEq]
  norm_num

/-- C8: `viewportPointAndScroll` computes the target point as the minimum
x/y corner of the padding quad plus the relative offset, or the raw
relative point without a box model, and reports zero scroll delta on both
axes whenever that point lies within `[1, width-1] × [1, height-1]`; in the
concrete scenario with padding-quad min corner `(500, 500)`, relative point
`(5, 5)` and viewport `800×600` the result is point `(505, 505)` with
scroll delta `(0, 0)`. -/
theorem viewportPointAndScroll_spec :
    (∀ (quad : List ℚ) (rp : Point) (w h : ℚ),
      (viewportPointAndScroll (some quad) rp w h).point =
        ⟨min (min (quad.getD 0 0) (quad.getD 2 0)) (min (quad.getD 4 0) (quad.getD 6 0)) + rp.x,
         min (min (quad.getD 1 0) (quad.getD 3 0)) (min (quad.getD 5 0) (quad.getD 7 0)) + rp.y⟩) ∧
    (∀ (rp : Point) (w h : ℚ), (viewportPointAndScroll none rp w h).point = rp) ∧
    (∀ (model : Option (List ℚ)) (rp : Point) (w h : ℚ),
      1 ≤ (viewportPointAndScroll model rp w h).point.x →
      (viewportPointAndScroll model rp w h).point.x ≤ w - 1 →
      1 ≤ (viewportPointAndScroll model rp w h).point.y →
      (viewportPointAndScroll model rp w h).point.y ≤ h - 1 →
      (viewportPointAndScroll model rp w h).scrollX = 0 ∧
        (viewportPointAndScroll model rp w h).scrollY = 0) ∧
    viewportPointAndScroll (some [500, 500, 600, 500, 600, 600, 500, 600]) ⟨5, 5⟩ 800 600 =
      ⟨⟨505, 505⟩, 0, 0⟩ := by
  refine ⟨fun quad rp w h => rfl, fun rp w h => rfl, ?_, by norm_num [viewportPointAndScroll]⟩
  intro model rp w h h1 h2 h3 h4
  rcases model with _ | quad <;>
  · simp only [viewportPointAndScroll] at h1 h2 h3 h4 ⊢
    refine ⟨?_, ?_⟩ <;> split_ifs <;> first | rfl | linarith

/-- Witness for C8 at the concrete scenario of the claim. -/
theorem viewportPointAndScroll_spec_witness :
    (viewportPointAndScroll (some [500, 500, 600, 500, 600, 600, 500, 600]) ⟨5, 5⟩ 800 600).scrollX
        = 0 ∧
      (viewportPointAndScroll (some [500, 500, 600, 500, 600, 600, 500, 600]) ⟨5, 5⟩
          800 600).scrollY = 0 :=
  viewportPointAndScroll_spec.2.2.1 (some [500, 500, 600, 500, 600, 600, 500, 600]) ⟨5, 5⟩ 800 600
    (by norm_num [viewportPointAndScroll]) (by norm_num [viewportPointAndScroll])
    (by norm_num [viewportPointAndScroll]) (by norm_num [viewportPointAndScroll])

/-- C4: `rewriteError` turns a rejection whose message contains the
reference-chain-too-long or could-not-be-returned-by-value strings into a
successful `undefined` result, remaps a message ending in the
context-not-found or target-navigated suffixes to the stable
context-destroyed error, and rethrows every other rejection unchanged. -/
theorem rewriteError_spec :
    ∀ msg : String,
      (strIncludes msg "Object reference chain is too long" = true →
        rewriteError msg = .undefinedResult) ∧
      (strIncludes msg couldNotReturnMsg = true →
        rewriteError msg = .undefinedResult) ∧
      (strIncludes msg "Object reference chain is too long" = false →
        strIncludes msg couldNotReturnMsg = false →
        (strEndsWith msg "Cannot find context with specified id" = true ∨
          strEndsWith msg "Inspected target navigated or closed" = true) →
        rewriteError msg =
          .thrown "Execution context was destroyed, most likely because of a navigation.") ∧
      (strIncludes msg "Object reference chain is too long" = false →
        strIncludes msg couldNotReturnMsg = false →
        strEndsWith msg "Cannot find context with specified id" = false →
        strEndsWith msg "Inspected target navigated or closed" = false →
        rewriteError msg = .thrown msg) := by
  intro msg
  refine ⟨?_, ?_, ?_, ?_⟩
  · intro h1
    simp [rewriteError, h1]
  · intro h2
    rcases h1 : strIncludes msg "Object reference chain is too long" <;>
      simp [rewriteError, h1, h2]
  · intro h1 h2 h3
    rcases h3 with h3 | h3 <;> simp [rewriteError, h1, h2, h3]
  · intro h1 h2 h3 h4
    simp [rewriteError, h1, h2, h3, h4]

/-- Witness for C4: a protocol rejection ending in the target-navigated
suffix surfaces as the context-destroyed error. -/
theorem rewriteError_spec_witness :
    rewriteError "Protocol error: Inspected target navigated or closed" =
      .thrown "Execution context was destroyed, most likely because of a navigation." :=
  (rewriteError_spec "Protocol error: Inspected target navigated or closed").2.2.1
    (by simp [strIncludes, listContainsSeq, List.isPrefixOf])
    (by simp [strIncludes, couldNotReturnMsg, apos, listContainsSeq, List.isPrefixOf])
    (Or.inr (by simp [strEndsWith, List.isPrefixOf]))

/-- C5: a handle passed as an evaluate argument fails with the
cross-context error when it belongs to a different execution context, and a
disposed handle belonging to the same context always fails with the
disposed-handle error, whatever its remote-object descriptor is. -/
theorem convertArgument_handle_errors :
    ∀ (contextId : Nat) (h : Handle),
      (h.ctx ≠ contextId →
        convertArgument contextId (.handle h) =
          .error "JSHandles can be evaluated only in the context they were created!") ∧
      (h.ctx = contextId → h.disposed = true →
        convertArgument contextId (.handle h) = .error "JSHandle is disposed!") := by
  intro contextId h
  constructor
  · intro hctx
    simp [convertArgument, hctx]
  · intro hctx hdisp
    simp [convertArgument, hctx, hdisp]

/-- Witness for C5: a disposed same-context handle with an object-id
descriptor fails with the disposed-handle error. -/
theorem convertArgument_handle_errors_witness :
    convertArgument 7 (.handle ⟨7, true, ⟨some "oid-1", none, none⟩⟩) =
      .error "JSHandle is disposed!" :=
  (convertArgument_handle_errors 7 ⟨7, true, ⟨some "oid-1", none, none⟩⟩).2 rfl rfl

/-- C6: argument conversion produces exactly the protocol's
unserializable-value tags — a bigint becomes its decimal digits suffixed
with `n`, and `-0`, `Infinity`, `-Infinity`, `NaN` become those exact
strings — while every other non-handle value (including ordinary `0`, which
`Object.is` distinguishes from `-0`) is inlined as `\x7bvalue: arg\x7d`. -/
theorem convertArgument_unserializable_tags :
    ∀ contextId : Nat,
      (∀ n : ℤ, convertArgument contextId (.bigint n) =
        .ok (.unserializable (toString n ++ "n"))) ∧
      convertArgument contextId .negZero = .ok (.unserializable "-0") ∧
      convertArgument contextId .posInfinity = .ok (.unserializable "Infinity") ∧
      convertArgument contextId .negInfinity = .ok (.unserializable "-Infinity") ∧
      convertArgument contextId .nan = .ok (.unserializable "NaN") ∧
      (∀ q : ℚ, convertArgument contextId (.num q) = .ok (.inlined (.num q))) ∧
      (∀ s : String, convertArgument contextId (.str s) = .ok (.inlined (.str s))) ∧
      (∀ b : Bool, convertArgument contextId (.boolean b) = .ok (.inlined (.boolean b))) ∧
      convertArgument contextId .undef = .ok (.inlined .undef) ∧
      convertArgument contextId .nullVal = .ok (.inlined .nullVal) ∧
      (∀ t : String, convertArgument contextId (.plainObject t) =
        .ok (.inlined (.plainObject t))) :=
  fun _ => ⟨fun _ => rfl, rfl, rfl, rfl, rfl, fun _ => rfl, fun _ => rfl, fun _ => rfl,
    rfl, rfl, fun _ => rfl⟩

/-- C9: when the parenthesized function text fails to parse, exactly one
rewrite is attempted — a leading `async ` is replaced by `async function `,
otherwise `function ` is prepended — and if the rewritten text still fails
to parse the evaluation fails with the not-well-serializable error; when the
original text parses it is used unchanged. -/
theorem evaluateFunctionText_retry :
    ∀ (parses : String → Bool) (t : String),
      (parses ("(" ++ t ++ ")") = true → evaluateFunctionText parses t = .ok t) ∧
      (parses ("(" ++ t ++ ")") = false →
        strStartsWith t "async " = true →
        ((parses ("(" ++ ("async function " ++ t.drop ("async ".length)) ++ ")") = true →
          evaluateFunctionText parses t = .ok ("async function " ++ t.drop ("async ".length))) ∧
        (parses ("(" ++ ("async function " ++ t.drop ("async ".length)) ++ ")") = false →
          evaluateFunctionText parses t = .error "Passed function is not well-serializable!"))) ∧
      (parses ("(" ++ t ++ ")") = false →
        strStartsWith t "async " = false →
        ((parses ("(" ++ ("function " ++ t) ++ ")") = true →
          evaluateFunctionText parses t = .ok ("function " ++ t)) ∧
        (parses ("(" ++ ("function " ++ t) ++ ")") = false →
          evaluateFunctionText parses t =
            .error "Passed function is not well-serializable!"))) := by
  intro parses t
  refine ⟨?_, ?_, ?_⟩
  · intro h1
    simp [evaluateFunctionText, h1]
  · intro h1 ha
    constructor <;> intro h2 <;> simp [evaluateFunctionText, h1, ha, h2]
  · intro h1 ha
    constructor <;> intro h2 <;> simp [evaluateFunctionText, h1, ha, h2]

/-- Witness for C9: with a parse oracle rejecting everything, a shorthand
method text fails with the not-well-serializable error after the single
`function `-prefix rewrite. -/
theorem evaluateFunctionText_retry_witness :
    evaluateFunctionText (fun _ => false) "foo() \x7b return 1; \x7d" =
      .error "Passed function is not well-serializable!" :=
  ((evaluateFunctionText_retry (fun _ => false) "foo() \x7b return 1; \x7d").2.2 rfl
    (by simp [strStartsWith, List.isPrefixOf])).2 rfl

/-- C10: on the default path (no `relativePoint` option), the
scroll-into-view routine runs twice before the clickable point is computed
— once unconditionally at the start and once in the default-point branch —
and the whole action issues exactly two scroll-into-view evaluations. -/
theorem performPointerAction_double_scroll :
    ∀ (env : PointerActionEnv) (modifiers : Bool),
      env.scrollResult1 = none → env.scrollResult2 = none →
      (performPointerAction env none modifiers).1.take 3 =
        [ActionStep.scrollIntoView, ActionStep.scrollIntoView,
          ActionStep.computeClickablePoint] ∧
      (performPointerAction env none modifiers).1.count ActionStep.scrollIntoView = 2 := by
  intro env modifiers h1 h2
  rcases hc : env.clickResult with e | p <;>
    rcases ha : env.actionError with _ | ae <;>
    rcases modifiers <;>
    simp [performPointerAction, finishPointerAction, h1, h2, hc, ha, List.count_cons,
      List.count_append]

/-- Witness for C10 at a concrete environment whose scroll calls succeed. -/
theorem performPointerAction_double_scroll_witness :
    (performPointerAction ⟨none, none, ⟨⟨0, 0⟩, 0, 0⟩, none, ⟨⟨0, 0⟩, 0, 0⟩, .ok ⟨3, 4⟩, none⟩
        none false).1.take 3 =
      [ActionStep.scrollIntoView, ActionStep.scrollIntoView,
        ActionStep.computeClickablePoint] ∧
    (performPointerAction ⟨none, none, ⟨⟨0, 0⟩, 0, 0⟩, none, ⟨⟨0, 0⟩, 0, 0⟩, .ok ⟨3, 4⟩, none⟩
        none false).1.count ActionStep.scrollIntoView = 2 :=
  performPointerAction_double_scroll
    ⟨none, none, ⟨⟨0, 0⟩, 0, 0⟩, none, ⟨⟨0, 0⟩, 0, 0⟩, .ok ⟨3, 4⟩, none⟩ false rfl rfl

/-- C1 counterexample: `select("b", \x7blabel: "Second"\x7d, 2)` does not
normalize the number 2 to `\x7bindex: 2\x7d` — the number is wrapped as
`\x7bvalue: 2\x7d`, so the normalized list differs from the one the claim
states and the whole call is rejected by the value-type assertion. -/
theorem select_index_normalization_false :
    ([SelectValue.str "b", SelectValue.opt { label := some (.str "Second") },
        SelectValue.num 2].map normalizeSelectValue =
      [NormalizedSelect.opt { value := some (.str "b") },
        NormalizedSelect.opt { label := some (.str "Second") },
        NormalizedSelect.opt { value := some (.num 2) }]) ∧
    ([SelectValue.str "b", SelectValue.opt { label := some (.str "Second") },
        SelectValue.num 2].map normalizeSelectValue ≠
      [NormalizedSelect.opt { value := some (.str "b") },
        NormalizedSelect.opt { label := some (.str "Second") },
        NormalizedSelect.opt { index := some (.num 2) }]) ∧
    select [SelectValue.str "b", SelectValue.opt { label := some (.str "Second") },
        SelectValue.num 2] =
      .error "Values must be strings. Found value \"2\" of type \"number\"" := by
  refine ⟨rfl, ?_, rfl⟩
  intro h
  have h3 := congrArg (fun l => l.getD 2 NormalizedSelect.handle) h
  simp [normalizeSelectValue, List.getD] at h3

/-- C1 amended: `select` normalizes a string argument to `\x7bvalue: s\x7d`,
a number argument to `\x7bvalue: n\x7d` (not `\x7bindex: n\x7d`), passes an
already-object argument through unchanged, and rejects any option whose
`value` field is present and not a string with a type-validation error
naming the offending value and its actual type — so the call
`select("b", \x7blabel: "Second"\x7d, 2)` is rejected naming value `2` of
type `number`. -/
theorem select_normalization_amended :
    (∀ s : String, normalizeSelectValue (.str s) = .opt { value := some (.str s) }) ∧
    (∀ q : ℚ, normalizeSelectValue (.num q) = .opt { value := some (.num q) }) ∧
    (∀ o : SelectOption, normalizeSelectValue (.opt o) = .opt o) ∧
    (∀ (o : SelectOption) (v : SelectPrim), o.value = some v → isStringPrim v = false →
      validateSelectOption o =
        .error ("Values must be strings. Found value \"" ++ primDisplay v ++
          "\" of type \"" ++ jsTypeof v ++ "\"")) ∧
    select [SelectValue.str "b", SelectValue.opt { label := some (.str "Second") },
        SelectValue.num 2] =
      .error "Values must be strings. Found value \"2\" of type \"number\"" := by
  refine ⟨fun s => rfl, fun q => rfl, fun o => rfl, ?_, rfl⟩
  intro o v hv hns
  simp [validateSelectOption, hv, hns]

/-- Witness for C1 amended: the option `\x7bvalue: 2\x7d` fails validation
with the message naming value 2 and type number. -/
theorem select_normalization_amended_witness :
    validateSelectOption { value := some (.num 2) } =
      .error "Values must be strings. Found value \"2\" of type \"number\"" :=
  select_normalization_amended.2.2.2.1 { value := some (.num 2) } (.num 2) rfl rfl

/-- C2 counterexample: with viewport 100×100 and a 200×150 element the
viewport is enlarged to 200×150, and when the page-level capture throws the
error propagates with the enlarged viewport still in place — the original
viewport is not restored on the failure path. -/
theorem screenshot_viewport_not_restored :
    (screenshot ⟨some ⟨0, 0, 200, 150⟩, none, some ⟨0, 0, 200, 150⟩, 0, 0,
        .error "Protocol error: capture failed"⟩ (some ⟨100, 100⟩)).1 =
      .error "Protocol error: capture failed" ∧
    (screenshot ⟨some ⟨0, 0, 200, 150⟩, none, some ⟨0, 0, 200, 150⟩, 0, 0,
        .error "Protocol error: capture failed"⟩ (some ⟨100, 100⟩)).2 =
      some ⟨200, 150⟩ ∧
    some (Viewport.mk 200 150) ≠ some (Viewport.mk 100 100) := by
  refine ⟨rfl, rfl, ?_⟩
  intro h
  have := Option.some.inj h
  have h100 : (200 : ℚ) = 100 := congrArg Viewport.width this
  norm_num at h100

/-- C2 amended: the original viewport is restored after capture on every
successful path, but when the page-level capture step throws, the
temporarily enlarged viewport is left in place — restoration is conditional
on the capture succeeding, not guaranteed on the failure path. -/
theorem screenshot_viewport_restore_amended :
    (∀ (env : ScreenshotEnv) (viewport : Option Viewport) (img : String),
      (screenshot env viewport).1 = .ok img → (screenshot env viewport).2 = viewport) ∧
    (∀ (env : ScreenshotEnv) (v : Viewport) (bb bb2 : Box) (e : String),
      env.boundingBox1 = some bb →
      bb.width > v.width ∨ bb.height > v.height →
      env.scrollError = none →
      env.boundingBox2 = some bb2 →
      bb2.width ≠ 0 → bb2.height ≠ 0 →
      env.capture = .error e →
      (screenshot env (some v)).1 = .error e ∧
      (screenshot env (some v)).2 =
        some ⟨max v.width ((⌈bb.width⌉ : ℤ) : ℚ), max v.height ((⌈bb.height⌉ : ℤ) : ℚ)⟩) := by
  constructor
  · intro env viewport img hok
    rcases env with ⟨bb1, se, bb2, px, py, cap⟩
    simp only [screenshot] at hok ⊢
    repeat' split at hok
    all_goals simp_all
  · intro env v bb bb2 e hbb1 hlarge hse hbb2 hw hh hcap
    rcases env with ⟨bb1f, sef, bb2f, px, py, capf⟩
    simp only at hbb1 hse hbb2 hcap
    subst hbb1
    subst hse
    subst hbb2
    subst hcap
    simp only [screenshot]
    rw [if_pos hlarge]
    simp [hw, hh]

/-- Witness for C2 amended at the concrete failing-capture scenario. -/
theorem screenshot_viewport_restore_amended_witness :
    (screenshot ⟨some ⟨0, 0, 200, 150⟩, none, some ⟨0, 0, 200, 150⟩, 0, 0,
        .error "Protocol error: capture failed"⟩ (some ⟨100, 100⟩)).1 =
      .error "Protocol error: capture failed" ∧
    (screenshot ⟨some ⟨0, 0, 200, 150⟩, none, some ⟨0, 0, 200, 150⟩, 0, 0,
        .error "Protocol error: capture failed"⟩ (some ⟨100, 100⟩)).2 =
      some ⟨max 100 ((⌈(200 : ℚ)⌉ : ℤ) : ℚ), max 100 ((⌈(150 : ℚ)⌉ : ℤ) : ℚ)⟩ :=
  screenshot_viewport_restore_amended.2
    ⟨some ⟨0, 0, 200, 150⟩, none, some ⟨0, 0, 200, 150⟩, 0, 0,
      .error "Protocol error: capture failed"⟩ ⟨100, 100⟩ ⟨0, 0, 200, 150⟩ ⟨0, 0, 200, 150⟩
    "Protocol error: capture failed" rfl (Or.inl (by norm_num)) rfl rfl (by norm_num)
    (by norm_num) rfl

end Playwright
